import Mathlib

/-!
Shallow embedding of the GraphQL-lite HTTP client (src/index.ts).

The client class GraphQLLite stores one field, a GraphQLClientOptions record.
JavaScript objects used as string-keyed maps are embedded as functions
String to Option String; object spread is embedded so that a key present in
the right operand wins.  The platform fetch call is abstracted by a Transport
value describing, for the single network call a request makes, the delay
until the call settles and its behavior (reject with a thrown value, or
respond with a status and a body whose JSON parse may itself throw).  Thrown
JavaScript values are either Error objects carrying a message or arbitrary
non-Error values.
-/

/-- JSON values, for variable mappings and response payloads. -/
inductive Json where
  | null : Json
  | bool (b : Bool) : Json
  | num (n : Int) : Json
  | str (s : String) : Json
  | arr (elems : List Json) : Json
  | obj (fields : List (String × Json)) : Json

/-- Keys of a JSON object, in order; other JSON values have no keys. -/
def Json.keys : Json → List String
  | .obj fields => fields.map Prod.fst
  | _ => []

/-- A variable mapping, the V of request: a Record of string keys to JSON values. -/
abbrev Variables := List (String × Json)

/-- A JavaScript object used as a header map: key to value, absent key is none. -/
abbrev HeaderMap := String → Option String

/-- The empty header object. -/
def HeaderMap.empty : HeaderMap := fun _ => none

/-- Adding or replacing the binding of one key, as the spread with a computed key does. -/
def HeaderMap.insert (m : HeaderMap) (k v : String) : HeaderMap :=
  fun k2 => if k2 = k then some v else m k2

/-- One field of a JavaScript object spread: the override operand wins when present. -/
def overrideField {α : Type} (o base : Option α) : Option α :=
  match o with
  | some v => some v
  | none => base

/-- Object spread of two header objects: a key of b wins over the same key of a. -/
def HeaderMap.merge (a b : HeaderMap) : HeaderMap :=
  fun k => overrideField (b k) (a k)

/-- An application-level error of a response body (interface GraphQLError). -/
structure GraphQLError where
  message : String
  locations : Option (List (Nat × Nat)) := none
  path : Option (List String) := none
  extensions : Option (List (String × Json)) := none

/-- A response body (interface GraphQLResponse): optional data, optional error list. -/
structure GraphQLResponse where
  data : Option Json := none
  errors : Option (List GraphQLError) := none

/-- The client options record (interface GraphQLClientOptions, which extends
GraphQLRequestConfig with defaultHeaders and timeout). -/
structure GraphQLClientOptions where
  url : String
  headers : Option HeaderMap := none
  credentials : Option String := none
  mode : Option String := none
  cache : Option String := none
  defaultHeaders : Option HeaderMap := none
  timeout : Option Nat := none

/-- The per-call override record, embedding the parameter type of request,
which is the Partial form of GraphQLRequestConfig: every field optional,
and only the five fields url, headers, credentials, mode, cache exist. -/
structure RequestConfigOverride where
  url : Option String := none
  headers : Option HeaderMap := none
  credentials : Option String := none
  mode : Option String := none
  cache : Option String := none

/-- The client class: its single private field config. -/
structure GraphQLLite where
  config : GraphQLClientOptions

/-- The constructor (and the createClient helper): stores the options with
defaultHeaders seeded by a Content-Type entry that the spread of the
caller-supplied defaultHeaders may replace per key. -/
def createClient (options : GraphQLClientOptions) : GraphQLLite :=
  ⟨{ options with
      defaultHeaders := some (HeaderMap.merge
        (HeaderMap.insert HeaderMap.empty "Content-Type" "application/json")
        (options.defaultHeaders.getD HeaderMap.empty)) }⟩

/-- The merge at the top of request: the spread of this.config with the
per-call override.  The override type has no defaultHeaders and no timeout
field, so those two fields always come from the stored config. -/
def mergeConfig (c : GraphQLClientOptions) (r : RequestConfigOverride) : GraphQLClientOptions :=
  { url := r.url.getD c.url
    headers := overrideField r.headers c.headers
    credentials := overrideField r.credentials c.credentials
    mode := overrideField r.mode c.mode
    cache := overrideField r.cache c.cache
    defaultHeaders := c.defaultHeaders
    timeout := c.timeout }

/-- A thrown JavaScript value: an Error object with a message, or any
non-Error value (abstracted as a tagged string). -/
inductive JSValue where
  | errorObj (message : String)
  | raw (value : String)

/-- What the platform fetch does for the one call a request issues: reject
with a thrown value, or respond with a status and a body whose JSON parse
either throws or yields a response record (the cast to GraphQLResponse in
the source performs no validation). -/
inductive FetchBehavior where
  | throws (v : JSValue)
  | respond (status : Nat) (body : Except JSValue GraphQLResponse)

/-- The environment of one call: time until the fetch settles, and its behavior. -/
structure Transport where
  delay : Nat
  behavior : FetchBehavior

/-- Message of the Error the platform raises when an AbortController cancels a fetch. -/
def abortErrorMessage : String := "The operation was aborted"

/-- The ok flag of a fetch response: status in the successful range. -/
def statusOk (status : Nat) : Bool := decide (200 ≤ status) && decide (status < 300)

/-- Whether the abort timer fires before the fetch settles.  The source guards
setTimeout with the truthiness of config.timeout, so a timeout of zero starts
no timer at all; otherwise the timer aborts the call when it elapses strictly
before the fetch settles. -/
def timerFires (timeout : Option Nat) (delay : Nat) : Bool :=
  match timeout with
  | some tm => (tm != 0) && decide (tm < delay)
  | none => false

/-- Outcome of awaiting the fetch under the abort timer: an abort error when
the timer fires first, else the transport behavior (thrown value, or status
paired with the parse outcome of the body). -/
def fetchResult (timeout : Option Nat) (t : Transport) :
    Except JSValue (Nat × Except JSValue GraphQLResponse) :=
  if timerFires timeout t.delay then .error (.errorObj abortErrorMessage)
  else match t.behavior with
    | .throws v => .error v
    | .respond status body => .ok (status, body)

/-- The try block of request: await fetch, throw an Error naming the status
when response.ok is false, else await the JSON parse of the body. -/
def runTry (config : GraphQLClientOptions) (t : Transport) : Except JSValue GraphQLResponse :=
  match fetchResult config.timeout t with
  | .error e => .error e
  | .ok (status, body) =>
    if statusOk status then body
    else .error (.errorObj ("HTTP error! status: " ++ toString status))

/-- The argument object handed to fetch by request: the merged URL, the POST
method, the spread of defaultHeaders under the per-call headers, the JSON body
with its two keys, and the three transport fields of the merged config. -/
structure FetchArgs where
  url : String
  method : String
  headers : HeaderMap
  body : Json
  credentials : Option String
  mode : Option String
  cache : Option String

/-- What request passes to fetch, as a function of the stored config, the
operation text, the variable mapping (defaulted to the empty mapping when omitted)
and the per-call override (defaulted to the empty override when omitted). -/
def GraphQLLite.fetchArgs (self : GraphQLLite) (q : String)
    (vars : Option Variables) (rc : Option RequestConfigOverride) : FetchArgs :=
  let config := mergeConfig self.config (rc.getD {})
  { url := config.url
    method := "POST"
    headers := HeaderMap.merge (config.defaultHeaders.getD HeaderMap.empty)
      (config.headers.getD HeaderMap.empty)
    body := Json.obj [("query", Json.str q), ("variables", Json.obj (vars.getD []))]
    credentials := config.credentials
    mode := config.mode
    cache := config.cache }

/-- The request method: merge the config, run the try block against the
transport, and in the catch block wrap a thrown Error instance in a new Error
with the request-failure prefix while re-raising any non-Error value as is. -/
def GraphQLLite.request (self : GraphQLLite) (q : String)
    (vars : Option Variables) (rc : Option RequestConfigOverride)
    (t : Transport) : Except JSValue GraphQLResponse :=
  let config := mergeConfig self.config (rc.getD {})
  match runTry config t with
  | .ok result => .ok result
  | .error (.errorObj m) => .error (.errorObj ("GraphQL request failed: " ++ m))
  | .error v => .error v

/-- The query method: call request; when the errors field of the body is
present (the truthiness test of the source, which an empty array passes),
throw an Error joining the error messages; else return the data field. -/
def GraphQLLite.query (self : GraphQLLite) (q : String)
    (vars : Option Variables) (rc : Option RequestConfigOverride)
    (t : Transport) : Except JSValue (Option Json) :=
  match self.request q vars rc t with
  | .error e => .error e
  | .ok response =>
    match response.errors with
    | some errs => .error (.errorObj (String.intercalate ", " (errs.map GraphQLError.message)))
    | none => .ok response.data

/-- The mutation method: delegates to query unchanged. -/
def GraphQLLite.mutation (self : GraphQLLite) (q : String)
    (vars : Option Variables) (rc : Option RequestConfigOverride)
    (t : Transport) : Except JSValue (Option Json) :=
  self.query q vars rc t

/-- The setHeader method: replace the stored defaultHeaders by its spread
with one computed-key binding. -/
def GraphQLLite.setHeader (self : GraphQLLite) (key value : String) : GraphQLLite :=
  ⟨{ self.config with
      defaultHeaders :=
        some (HeaderMap.insert (self.config.defaultHeaders.getD HeaderMap.empty) key value) }⟩

/-- The setHeaders method: replace the stored defaultHeaders by its spread
under the supplied mapping, the supplied mapping winning per key. -/
def GraphQLLite.setHeaders (self : GraphQLLite) (headers : HeaderMap) : GraphQLLite :=
  ⟨{ self.config with
      defaultHeaders :=
        some (HeaderMap.merge (self.config.defaultHeaders.getD HeaderMap.empty) headers) }⟩

/-- The request method viewed with its instance state threaded explicitly:
the method body reads this.config once into a merged local copy and contains
no assignment to this.config, so the state out is the state in. -/
def GraphQLLite.requestM (self : GraphQLLite) (q : String)
    (vars : Option Variables) (rc : Option RequestConfigOverride)
    (t : Transport) : Except JSValue GraphQLResponse × GraphQLLite :=
  (self.request q vars rc t, self)

/-- The query method with its instance state threaded explicitly; it only
calls request and inspects the returned body, assigning nothing. -/
def GraphQLLite.queryM (self : GraphQLLite) (q : String)
    (vars : Option Variables) (rc : Option RequestConfigOverride)
    (t : Transport) : Except JSValue (Option Json) × GraphQLLite :=
  (self.query q vars rc t, self)

/-- The mutation method with its instance state threaded explicitly. -/
def GraphQLLite.mutationM (self : GraphQLLite) (q : String)
    (vars : Option Variables) (rc : Option RequestConfigOverride)
    (t : Transport) : Except JSValue (Option Json) × GraphQLLite :=
  (self.mutation q vars rc t, self)

/-- Helper: with a transport that settles immediately, no abort timer ever
fires, whatever timeout is configured (the timer can only fire strictly
before the fetch settles). -/
theorem timerFires_delay_zero (topt : Option Nat) : timerFires topt 0 = false := by
  cases topt with
  | none => rfl
  | some tm => simp [timerFires]

/-- Sample response body whose errors field is a present but empty list. -/
def emptyErrorsBody : GraphQLResponse := { data := some (Json.str "d"), errors := some [] }

/-- Sample successful response body. -/
def okBody : GraphQLResponse := { data := some (Json.str "x") }

/-- Sample client whose stored defaults bind the keys A and B. -/
def sampleClient : GraphQLLite :=
  createClient
    { url := "u"
      defaultHeaders :=
        some (HeaderMap.insert (HeaderMap.insert HeaderMap.empty "A" "d") "B" "bd") }

/-- Sample per-call override rebinding A and setting a credentials mode. -/
def sampleOverride : RequestConfigOverride :=
  { headers := some (HeaderMap.insert HeaderMap.empty "A" "p"), credentials := some "include" }

/-- Sample partial header mapping binding only the key A. -/
def sampleHeaders : HeaderMap := HeaderMap.insert HeaderMap.empty "A" "x"

/-- C1: every request, query or mutation call issues one HTTP POST whose body
is an object with exactly the two keys query (bound to the operation text)
and variables (bound to the supplied mapping, or the empty mapping when
omitted), the key being named query for mutations as well, since mutation
delegates to query and both go through the single fetch of request. -/
theorem C1_request_body_exact (self : GraphQLLite) (q : String)
    (vars : Option Variables) (rc : Option RequestConfigOverride) (t : Transport) :
    (self.fetchArgs q vars rc).method = "POST" ∧
    (self.fetchArgs q vars rc).body =
      Json.obj [("query", Json.str q), ("variables", Json.obj (vars.getD []))] ∧
    Json.keys (self.fetchArgs q vars rc).body = ["query", "variables"] ∧
    self.mutation q vars rc t = self.query q vars rc t :=
  ⟨rfl, rfl, rfl, rfl⟩

/-- C2: the headers actually sent resolve each key to the per-call value when
the per-call override binds it and to the stored default value otherwise,
while the credentials, mode and cache fields are replaced wholesale when
present in the override and kept from the client otherwise. -/
theorem C2_header_merge_per_key (self : GraphQLLite) (o : RequestConfigOverride)
    (oh : HeaderMap) (q : String) (vars : Option Variables) (k : String)
    (hoh : o.headers = some oh) :
    (self.fetchArgs q vars (some o)).headers k
      = overrideField (oh k) ((self.config.defaultHeaders.getD HeaderMap.empty) k) ∧
    (self.fetchArgs q vars (some o)).credentials
      = overrideField o.credentials self.config.credentials ∧
    (self.fetchArgs q vars (some o)).mode = overrideField o.mode self.config.mode ∧
    (self.fetchArgs q vars (some o)).cache = overrideField o.cache self.config.cache := by
  refine ⟨?_, rfl, rfl, rfl⟩
  simp [GraphQLLite.fetchArgs, mergeConfig, HeaderMap.merge, overrideField, hoh]

/-- C2 witness: on the sample client and override, the key A set on both
sides resolves to the per-call value, the key B set only in the defaults
keeps its default value, and the credentials mode comes from the override. -/
theorem C2_witness :
    (sampleClient.fetchArgs "q" none (some sampleOverride)).headers "A" = some "p" ∧
    (sampleClient.fetchArgs "q" none (some sampleOverride)).headers "B" = some "bd" ∧
    (sampleClient.fetchArgs "q" none (some sampleOverride)).credentials = some "include" := by
  refine ⟨?_, ?_, ?_⟩
  · exact (C2_header_merge_per_key sampleClient sampleOverride
      (HeaderMap.insert HeaderMap.empty "A" "p") "q" none "A" rfl).1.trans (by decide)
  · exact (C2_header_merge_per_key sampleClient sampleOverride
      (HeaderMap.insert HeaderMap.empty "A" "p") "q" none "B" rfl).1.trans (by decide)
  · exact (C2_header_merge_per_key sampleClient sampleOverride
      (HeaderMap.insert HeaderMap.empty "A" "p") "q" none "B" rfl).2.1.trans (by decide)

/-- C3 counterexample: a body whose errors list is present but empty is not
non-empty, yet query fails on it (with the empty joined message), because the
source tests the truthiness of the errors field and an empty array is truthy;
the claim that query fails only on a non-empty errors list is therefore false. -/
theorem C3_counterexample :
    emptyErrorsBody.errors = some [] ∧
    GraphQLLite.query (createClient { url := "u" }) "q" none none
      ⟨0, .respond 200 (.ok emptyErrorsBody)⟩ = .error (.errorObj "") :=
  ⟨rfl, rfl⟩

/-- C3 amended: for every body delivered by a successful transport call,
request returns the body without failing, and query fails exactly when the
errors field is present (even as an empty list), with a message equal to the
error messages joined by a comma and space; when the errors field is absent
query returns the data field, which may itself be absent. -/
theorem C3_errors_unwrap (resp : GraphQLResponse) (self : GraphQLLite) (q : String)
    (vars : Option Variables) (rc : Option RequestConfigOverride) :
    self.request q vars rc ⟨0, .respond 200 (.ok resp)⟩ = .ok resp ∧
    self.query q vars rc ⟨0, .respond 200 (.ok resp)⟩
      = (match resp.errors with
         | some errs =>
             .error (.errorObj (String.intercalate ", " (errs.map GraphQLError.message)))
         | none => .ok resp.data) := by
  have hreq : self.request q vars rc ⟨0, .respond 200 (.ok resp)⟩ = .ok resp := by
    simp [GraphQLLite.request, runTry, fetchResult, timerFires_delay_zero, statusOk]
  refine ⟨hreq, ?_⟩
  simp [GraphQLLite.query, hreq]

/-- C4: when the response status is not a success status, request fails with
the wrapped Error naming the numeric status code, whatever the body parse
would have yielded (the body is never parsed), and no response value is
returned. -/
theorem C4_http_status_failure (self : GraphQLLite) (q : String)
    (vars : Option Variables) (rc : Option RequestConfigOverride) (status : Nat)
    (body : Except JSValue GraphQLResponse) (h : statusOk status = false) :
    self.request q vars rc ⟨0, .respond status body⟩
      = .error (.errorObj ("GraphQL request failed: "
          ++ ("HTTP error! status: " ++ toString status))) ∧
    ∀ resp : GraphQLResponse, self.request q vars rc ⟨0, .respond status body⟩ ≠ .ok resp := by
  have h1 : self.request q vars rc ⟨0, .respond status body⟩
      = .error (.errorObj ("GraphQL request failed: "
          ++ ("HTTP error! status: " ++ toString status))) := by
    simp [GraphQLLite.request, runTry, fetchResult, timerFires_delay_zero, h]
  refine ⟨h1, fun resp hc => ?_⟩
  rw [h1] at hc
  exact Except.noConfusion hc

/-- C4 witness: a 404 response with a well-formed body still fails with the
message naming the status, and the body is not surfaced. -/
theorem C4_witness :
    GraphQLLite.request (createClient { url := "u" }) "q" none none
      ⟨0, .respond 404 (.ok okBody)⟩
      = .error (.errorObj ("GraphQL request failed: "
          ++ ("HTTP error! status: " ++ toString 404))) :=
  (C4_http_status_failure (createClient { url := "u" }) "q" none none 404
    (.ok okBody) (by decide)).1

/-- C5 counterexample: a configured timeout of zero time-units with a
transport that has not settled at that instant still succeeds, because the
source starts the abort timer only when config.timeout is truthy and zero is
falsy; the claim, for every configured timeout duration, is therefore false. -/
theorem C5_counterexample :
    (createClient { url := "u", timeout := some 0 }).config.timeout = some 0 ∧
    GraphQLLite.request (createClient { url := "u", timeout := some 0 }) "q" none none
      ⟨5, .respond 200 (.ok okBody)⟩ = .ok okBody :=
  ⟨rfl, rfl⟩

/-- C5 amended: when the configured timeout is nonzero and the transport has
not settled when it elapses, the call is aborted and request fails with the
wrapped abort error; a success value is never returned. -/
theorem C5_timeout_aborts (self : GraphQLLite) (q : String) (vars : Option Variables)
    (rc : Option RequestConfigOverride) (t : Transport) (tm : Nat)
    (h1 : self.config.timeout = some tm) (h2 : tm ≠ 0) (h3 : tm < t.delay) :
    self.request q vars rc t
      = .error (.errorObj ("GraphQL request failed: " ++ abortErrorMessage)) ∧
    ∀ resp : GraphQLResponse, self.request q vars rc t ≠ .ok resp := by
  have hf : timerFires (mergeConfig self.config (rc.getD {})).timeout t.delay = true := by
    simp [mergeConfig, timerFires, h1, h2, h3]
  have h4 : self.request q vars rc t
      = .error (.errorObj ("GraphQL request failed: " ++ abortErrorMessage)) := by
    simp [GraphQLLite.request, runTry, fetchResult, hf]
  refine ⟨h4, fun resp hc => ?_⟩
  rw [h4] at hc
  exact Except.noConfusion hc

/-- C5 witness: a timeout of 100 time-units against a transport delay of 200
time-units always raises the wrapped abort failure. -/
theorem C5_witness :
    GraphQLLite.request (createClient { url := "u", timeout := some 100 }) "q" none none
      ⟨200, .respond 200 (.ok okBody)⟩
      = .error (.errorObj ("GraphQL request failed: " ++ abortErrorMessage)) :=
  (C5_timeout_aborts (createClient { url := "u", timeout := some 100 }) "q" none none
    ⟨200, .respond 200 (.ok okBody)⟩ 100 rfl (by decide) (by decide)).1

/-- C6 counterexample: when the underlying layer throws a non-Error value,
request re-raises that value unchanged, with no request-failure prefix and
not as the Error kind; the claim that every thrown value is re-raised as the
single prefixed failure kind is therefore false. -/
theorem C6_counterexample :
    GraphQLLite.request (createClient { url := "u" }) "q" none none
      ⟨0, .throws (.raw "boom")⟩ = .error (.raw "boom") :=
  rfl

/-- C6 amended: a failure thrown as an Error instance during network
transport, status classification or body parsing is re-raised as an Error
whose message carries the request-failure prefix wrapping the original
message, and the timeout abort is this same Error kind distinguishable only
by its message; a thrown non-Error value, however, is re-raised unchanged. -/
theorem C6_error_wrapping (self : GraphQLLite) (q : String) (vars : Option Variables)
    (rc : Option RequestConfigOverride) (m s : String) (beh : FetchBehavior)
    (body : Except JSValue GraphQLResponse) :
    self.request q vars rc ⟨0, .throws (.errorObj m)⟩
      = .error (.errorObj ("GraphQL request failed: " ++ m)) ∧
    self.request q vars rc ⟨0, .throws (.raw s)⟩ = .error (.raw s) ∧
    self.request q vars rc ⟨0, .respond 200 (.error (.errorObj m))⟩
      = .error (.errorObj ("GraphQL request failed: " ++ m)) ∧
    self.request q vars rc ⟨0, .respond 200 (.error (.raw s))⟩ = .error (.raw s) ∧
    self.request q vars rc ⟨0, .respond 404 body⟩
      = .error (.errorObj ("GraphQL request failed: "
          ++ ("HTTP error! status: " ++ toString 404))) ∧
    GraphQLLite.request ⟨{ self.config with timeout := some 1 }⟩ q vars rc ⟨2, beh⟩
      = .error (.errorObj ("GraphQL request failed: " ++ abortErrorMessage)) := by
  refine ⟨?_, ?_, ?_, ?_, ?_, ?_⟩
  · simp [GraphQLLite.request, runTry, fetchResult, timerFires_delay_zero]
  · simp [GraphQLLite.request, runTry, fetchResult, timerFires_delay_zero]
  · simp [GraphQLLite.request, runTry, fetchResult, timerFires_delay_zero, statusOk]
  · simp [GraphQLLite.request, runTry, fetchResult, timerFires_delay_zero, statusOk]
  · simp [GraphQLLite.request, runTry, fetchResult, timerFires_delay_zero, statusOk]
  · simp [GraphQLLite.request, runTry, fetchResult, mergeConfig, timerFires]

/-- C7 counterexample: no per-call override can change the timeout in effect,
because the per-call override type carries only the url, headers,
credentials, mode and cache fields, and the merge takes the timeout from the
stored config unconditionally; on a client stored with a timeout of 100 the
merged timeout is 100 for every override, so the claim that the timeout
duration may be overridden per call is false. -/
theorem C7_counterexample :
    ¬ ∃ o : RequestConfigOverride,
      (mergeConfig (createClient { url := "u", timeout := some 100 }).config o).timeout
        ≠ some 100 := by
  rintro ⟨o, h⟩
  exact h rfl

/-- C7 amended: the per-call override may override the url, headers,
credentials, mode and cache fields of the configuration, and the overridden
values are the ones in effect for that call, while the timeout duration is
not part of the per-call override type and always keeps the stored value. -/
theorem C7_override_fields (self : GraphQLLite) (q : String) (vars : Option Variables)
    (u : String) (hm : HeaderMap) (cr mo ca : String) :
    (self.fetchArgs q vars (some ⟨some u, some hm, some cr, some mo, some ca⟩)).url = u ∧
    (self.fetchArgs q vars (some ⟨some u, some hm, some cr, some mo, some ca⟩)).credentials
      = some cr ∧
    (self.fetchArgs q vars (some ⟨some u, some hm, some cr, some mo, some ca⟩)).mode
      = some mo ∧
    (self.fetchArgs q vars (some ⟨some u, some hm, some cr, some mo, some ca⟩)).cache
      = some ca ∧
    (self.fetchArgs q vars (some ⟨some u, some hm, some cr, some mo, some ca⟩)).headers
      = HeaderMap.merge (self.config.defaultHeaders.getD HeaderMap.empty) hm ∧
    (mergeConfig self.config ⟨some u, some hm, some cr, some mo, some ca⟩).timeout
      = self.config.timeout :=
  ⟨rfl, rfl, rfl, rfl, rfl, rfl⟩

/-- C8: setHeader applied twice with the same key leaves the client equal to
one where only the latest value was set; setHeaders with a mapping that does
not bind a key leaves that key of the stored defaults unchanged; and the
value set by setHeader is what a subsequent call sends for that key when no
client or per-call header shadows it. -/
theorem C8_header_updates (self : GraphQLLite) (k v1 v2 : String) (hs : HeaderMap)
    (k2 : String) (q : String) (vars : Option Variables)
    (h1 : hs k2 = none) (h2 : self.config.headers = none) :
    (self.setHeader k v1).setHeader k v2 = self.setHeader k v2 ∧
    ((self.setHeaders hs).config.defaultHeaders.getD HeaderMap.empty) k2
      = (self.config.defaultHeaders.getD HeaderMap.empty) k2 ∧
    ((self.setHeader k v2).fetchArgs q vars none).headers k = some v2 := by
  refine ⟨?_, ?_, ?_⟩
  · have hmap : HeaderMap.insert
        (HeaderMap.insert (self.config.defaultHeaders.getD HeaderMap.empty) k v1) k v2
        = HeaderMap.insert (self.config.defaultHeaders.getD HeaderMap.empty) k v2 := by
      funext k3
      by_cases hk : k3 = k <;> simp [HeaderMap.insert, hk]
    simp only [GraphQLLite.setHeader, Option.getD_some]
    rw [hmap]
  · simp [GraphQLLite.setHeaders, HeaderMap.merge, overrideField, h1]
  · simp [GraphQLLite.fetchArgs, GraphQLLite.setHeader, mergeConfig, HeaderMap.merge,
      HeaderMap.empty, HeaderMap.insert, overrideField, h2]

/-- C8 witness: on a fresh client, setting A twice keeps only the latest
value, setHeaders binding only A leaves B untouched, and the latest value of
A is sent by a subsequent call. -/
theorem C8_witness :
    ((createClient { url := "u" }).setHeader "A" "1").setHeader "A" "2"
      = (createClient { url := "u" }).setHeader "A" "2" ∧
    (((createClient { url := "u" }).setHeaders sampleHeaders).config.defaultHeaders.getD
        HeaderMap.empty) "B"
      = ((createClient { url := "u" }).config.defaultHeaders.getD HeaderMap.empty) "B" ∧
    (((createClient { url := "u" }).setHeader "A" "2").fetchArgs "q" none none).headers "A"
      = some "2" :=
  C8_header_updates (createClient { url := "u" }) "A" "1" "2" sampleHeaders "B" "q" none
    (by decide) rfl

/-- C9: the request, query and mutation methods leave the stored client
configuration exactly as it was: the per-call override is merged into a
local copy and the instance state out is the state in. -/
theorem C9_config_frame (self : GraphQLLite) (q : String) (vars : Option Variables)
    (rc : Option RequestConfigOverride) (t : Transport) :
    (self.requestM q vars rc t).2 = self ∧
    (self.queryM q vars rc t).2 = self ∧
    (self.mutationM q vars rc t).2 = self :=
  ⟨rfl, rfl, rfl⟩

/-- C10: after construction the stored default header mapping is present and
binds Content-Type to the caller-supplied value when the supplied
defaultHeaders mapping binds that key, and to application/json otherwise. -/
theorem C10_content_type_seeded (options : GraphQLClientOptions) :
    (createClient options).config.defaultHeaders.isSome = true ∧
    ((createClient options).config.defaultHeaders.getD HeaderMap.empty) "Content-Type"
      = some (((options.defaultHeaders.getD HeaderMap.empty) "Content-Type").getD
          "application/json") := by
  refine ⟨rfl, ?_⟩
  cases h : (options.defaultHeaders.getD HeaderMap.empty) "Content-Type" <;>
    simp [createClient, HeaderMap.merge, overrideField, HeaderMap.insert, h]
